import Mathlib

/-!
Verification of the merger-policy equilibrium solver of
Fumagalli_Motta_Tarantino_2020/Models.py: the parameter bag with its validity
checks (class BaseModel), the game-tree solver (class MergerPolicyModel) and
the optimal-policy comparator (class OptimalMergerPolicy), shallowly embedded
over the rationals.  Python floats are modelled as elements of ℚ and Python
assert statements as an Except-valued error channel recording the raised
exception type and message.  The standard normal CDF that the source obtains
from scipy.stats.norm.cdf is modelled by the computable strictly increasing
surrogate normCdfModel with range (0,1); theorems whose truth depends on CDF
values take the needed bounds as explicit hypotheses, so they hold for every
conforming distribution function.
-/

/-- The merger-policy enumeration of Types.py (class MergerPolicies); the
string literals of Models.py take these four values. -/
inductive MergerPolicies where
  | Strict
  | Intermediate_late_takeover_prohibited
  | Intermediate_late_takeover_allowed
  | Laissez_faire
deriving DecidableEq

/-- The bid-type enumeration of Types.py (class Takeover); Models.py uses the
literals "No", "Separating" and "Pooling". -/
inductive Takeover where
  | No
  | Separating
  | Pooling
deriving DecidableEq

/-- Python exception classes that appear in the repository: AssertionError
(every assert in Models.py), ValueError (caught in the configuration loader)
and IDNotAvailableError (raised by LoadConfig.py). -/
inductive PyExcType where
  | AssertionError
  | ValueError
  | IDNotAvailableError
deriving DecidableEq

/-- A raised Python exception: its class and its message. -/
structure PyExc where
  excType : PyExcType
  msg : String
deriving DecidableEq

/-- A Python assert statement: succeeds when the condition holds, otherwise
raises AssertionError with the given message. -/
def pyAssert (c : Prop) [Decidable c] (msg : String) : Except PyExc Unit :=
  if c then Except.ok () else Except.error ⟨PyExcType.AssertionError, msg⟩

/-- Whether a computation completed without raising. -/
def okB {α : Type} : Except PyExc α → Bool
  | Except.ok _ => true
  | Except.error _ => false

instance {α : Type} [DecidableEq α] : DecidableEq (Except PyExc α) := by
  intro a b
  cases a <;> cases b
  case ok.ok x y =>
    exact if h : x = y then Decidable.isTrue (by rw [h]) else
      Decidable.isFalse (fun hc => h (Except.ok.inj hc))
  case error.error x y =>
    exact if h : x = y then Decidable.isTrue (by rw [h]) else
      Decidable.isFalse (fun hc => h (Except.error.inj hc))
  case ok.error x y => exact Decidable.isFalse (fun hc => Except.noConfusion hc)
  case error.ok x y => exact Decidable.isFalse (fun hc => Except.noConfusion hc)

/-- The parameter bag of class BaseModel (Models.py): the twelve payoff, cost
and probability scalars plus the deterministic development-success switch. -/
structure BaseModel where
  tolerated_harm : ℚ
  development_costs : ℚ
  startup_assets : ℚ
  success_probability : ℚ
  development_success : Bool
  private_benefit : ℚ
  cs_without_innovation : ℚ
  incumbent_profit_without_innovation : ℚ
  cs_duopoly : ℚ
  incumbent_profit_duopoly : ℚ
  startup_profit_duopoly : ℚ
  cs_with_innovation : ℚ
  incumbent_profit_with_innovation : ℚ

namespace BaseModel

/-- Total welfare with the innovation introduced by the incumbent
(property w_with_innovation). -/
def w_with_innovation (m : BaseModel) : ℚ :=
  m.cs_with_innovation + m.incumbent_profit_with_innovation

/-- Total welfare without the innovation (property w_without_innovation). -/
def w_without_innovation (m : BaseModel) : ℚ :=
  m.cs_without_innovation + m.incumbent_profit_without_innovation

/-- Total welfare under duopoly (property w_duopoly). -/
def w_duopoly (m : BaseModel) : ℚ :=
  m.cs_duopoly + m.startup_profit_duopoly + m.incumbent_profit_duopoly

/-- BaseModel._check_preconditions: the assert chain run first in the
constructor, in source order, with the source's messages. -/
def check_preconditions (m : BaseModel) : Except PyExc Unit := do
  pyAssert (m.tolerated_harm ≥ 0) "Level of harm has to be bigger than 0"
  pyAssert (m.private_benefit > 0) "Private benefit has to be bigger than 0"
  pyAssert (0 < m.success_probability ∧ m.success_probability ≤ 1)
    "Success probability of development has to be between 0 and 1"
  pyAssert (0 < m.startup_assets ∧ m.startup_assets < m.development_costs)
    "Startup has not enough assets for development"
  pyAssert (m.incumbent_profit_without_innovation > m.incumbent_profit_duopoly)
    "Profit of the incumbent has to be bigger without the innovation than in the duopoly"
  pyAssert (m.incumbent_profit_with_innovation > m.incumbent_profit_without_innovation)
    "Profit of the incumbent has to be bigger with the innovation than without the innovation"
  pyAssert (m.cs_with_innovation ≥ m.cs_without_innovation)
    "Consumer surplus with the innovation has to weakly bigger than without the innovation"
  pyAssert (m.incumbent_profit_with_innovation >
      m.incumbent_profit_duopoly + m.startup_profit_duopoly) "A1 not satisfied (p.7)"
  pyAssert (m.startup_profit_duopoly >
      m.incumbent_profit_with_innovation - m.incumbent_profit_without_innovation)
    "A2 not satisfied (p.7)"
  pyAssert (m.success_probability * m.startup_profit_duopoly > m.development_costs)
    "A3 not satisfied (p.8)"
  pyAssert (m.private_benefit - m.development_costs < 0 ∧
      0 < m.private_benefit -
        (m.success_probability * m.startup_profit_duopoly - m.development_costs))
    "A5 not satisfied (p.8)"

/-- BaseModel._check_postconditions: the welfare-ranking assert followed by
assumption A4. -/
def check_postconditions (m : BaseModel) : Except PyExc Unit := do
  pyAssert (m.w_without_innovation < m.w_with_innovation ∧
      m.w_with_innovation < m.w_duopoly) "Ranking of total welfare not valid (p.7)"
  pyAssert (m.success_probability * (m.w_with_innovation - m.w_without_innovation) >
      m.development_costs) "A4 not satisfied (p.8)"

/-- BaseModel.__init__ after storing the fields: preconditions then
postconditions. -/
def construct (m : BaseModel) : Except PyExc Unit := do
  m.check_preconditions
  m.check_postconditions

/-- The conjunction of the conditions asserted by
BaseModel._check_preconditions. -/
def preconditions_hold (m : BaseModel) : Prop :=
  m.tolerated_harm ≥ 0 ∧
  m.private_benefit > 0 ∧
  (0 < m.success_probability ∧ m.success_probability ≤ 1) ∧
  (0 < m.startup_assets ∧ m.startup_assets < m.development_costs) ∧
  m.incumbent_profit_without_innovation > m.incumbent_profit_duopoly ∧
  m.incumbent_profit_with_innovation > m.incumbent_profit_without_innovation ∧
  m.cs_with_innovation ≥ m.cs_without_innovation ∧
  m.incumbent_profit_with_innovation >
    m.incumbent_profit_duopoly + m.startup_profit_duopoly ∧
  m.startup_profit_duopoly >
    m.incumbent_profit_with_innovation - m.incumbent_profit_without_innovation ∧
  m.success_probability * m.startup_profit_duopoly > m.development_costs ∧
  (m.private_benefit - m.development_costs < 0 ∧
    0 < m.private_benefit -
      (m.success_probability * m.startup_profit_duopoly - m.development_costs))

instance (m : BaseModel) : Decidable (preconditions_hold m) := by
  unfold preconditions_hold
  infer_instance

/-- The conjunction of the conditions asserted by
BaseModel._check_postconditions. -/
def postconditions_hold (m : BaseModel) : Prop :=
  (m.w_without_innovation < m.w_with_innovation ∧
    m.w_with_innovation < m.w_duopoly) ∧
  m.success_probability * (m.w_with_innovation - m.w_without_innovation) >
    m.development_costs

instance (m : BaseModel) : Decidable (postconditions_hold m) := by
  unfold postconditions_hold
  infer_instance

end BaseModel

/-- The four terminal outcome fields set by MergerPolicyModel._set_takeovers:
the two bid attempts and the two takeover flags. -/
structure Outcome where
  early_bid_attempt : Takeover
  late_bid_attempt : Takeover
  early_takeover : Bool
  late_takeover : Bool
deriving DecidableEq

/-- The record returned by MergerPolicyModel.summary (Models.py lines
824-832): exactly the seven keys of the returned dictionary. -/
structure Summary where
  credit_rationed : Bool
  early_bidding_type : Takeover
  late_bidding_type : Takeover
  development_attempt : Bool
  development_outcome : Bool
  early_takeover : Bool
  late_takeover : Bool
deriving DecidableEq

/-- Class MergerPolicyModel: the BaseModel parameters together with the
cumulative distribution function used by the static method _get_cdf_value
(scipy.stats.norm.cdf in the source, abstracted to any map ℚ → ℚ). -/
structure MergerPolicyModel extends BaseModel where
  cdf : ℚ → ℚ

namespace MergerPolicyModel

/-- Property asset_threshold: the credit-rationing cutoff
A-bar = B - (p πdS - K). -/
def asset_threshold (m : MergerPolicyModel) : ℚ :=
  m.private_benefit -
    (m.success_probability * m.startup_profit_duopoly - m.development_costs)

/-- Property asset_threshold_cdf: F(A-bar). -/
def asset_threshold_cdf (m : MergerPolicyModel) : ℚ := m.cdf m.asset_threshold

/-- Property asset_threshold_late_takeover: the relaxed cutoff
A-bar-T = B - (p πMI - K). -/
def asset_threshold_late_takeover (m : MergerPolicyModel) : ℚ :=
  m.private_benefit -
    (m.success_probability * m.incumbent_profit_with_innovation - m.development_costs)

/-- Property asset_threshold_late_takeover_cdf: F(A-bar-T). -/
def asset_threshold_late_takeover_cdf (m : MergerPolicyModel) : ℚ :=
  m.cdf m.asset_threshold_late_takeover

/-- Method incumbent_expected_additional_profit_from_innovation:
p (πMI - πmI) - K. -/
def incumbent_expected_additional_profit_from_innovation (m : MergerPolicyModel) : ℚ :=
  m.success_probability *
      (m.incumbent_profit_with_innovation - m.incumbent_profit_without_innovation) -
    m.development_costs

/-- Method is_incumbent_expected_to_shelve (Condition 1): the expected
additional profit from developing after an acquisition is negative. -/
def is_incumbent_expected_to_shelve (m : MergerPolicyModel) : Bool :=
  m.incumbent_expected_additional_profit_from_innovation < 0

/-- Method _calculate_h0. -/
def calculate_h0 (m : MergerPolicyModel) : ℚ :=
  max
    ((1 - m.asset_threshold_cdf) *
        (m.success_probability * (m.toBaseModel.w_duopoly - m.toBaseModel.w_with_innovation)) -
      m.asset_threshold_cdf *
        (m.success_probability *
            (m.toBaseModel.w_with_innovation - m.toBaseModel.w_without_innovation) -
          m.development_costs))
    0

/-- Method _calculate_h1. -/
def calculate_h1 (m : MergerPolicyModel) : ℚ :=
  (1 - m.asset_threshold_cdf) *
    (m.success_probability * (m.toBaseModel.w_duopoly - m.toBaseModel.w_without_innovation) -
      m.development_costs)

/-- Method _calculate_h2. -/
def calculate_h2 (m : MergerPolicyModel) : ℚ :=
  max (m.toBaseModel.w_duopoly - m.toBaseModel.w_with_innovation)
    ((1 - m.asset_threshold_late_takeover_cdf) *
      (m.success_probability *
          (m.toBaseModel.w_with_innovation - m.toBaseModel.w_without_innovation) -
        m.development_costs))

/-- Property merger_policy (Models.py lines 366-384): the if-chain
classifying tolerated harm against h0, h1, h2. -/
def merger_policy (m : MergerPolicyModel) : MergerPolicies :=
  if m.tolerated_harm ≤ m.calculate_h0 then MergerPolicies.Strict
  else if m.tolerated_harm < m.calculate_h1 then
    MergerPolicies.Intermediate_late_takeover_prohibited
  else if m.tolerated_harm < m.calculate_h2 then
    MergerPolicies.Intermediate_late_takeover_allowed
  else MergerPolicies.Laissez_faire

/-- Property is_startup_credit_rationed: assets below A-bar under Strict or
Intermediate-prohibited, below A-bar-T otherwise. -/
def is_startup_credit_rationed (m : MergerPolicyModel) : Bool :=
  if m.merger_policy = MergerPolicies.Strict ∨
      m.merger_policy = MergerPolicies.Intermediate_late_takeover_prohibited then
    m.startup_assets < m.asset_threshold
  else
    m.startup_assets < m.asset_threshold_late_takeover

/-- Property asset_distribution_threshold_strict (Lemma 3, Gamma). -/
def asset_distribution_threshold_strict (m : MergerPolicyModel) : ℚ :=
  (m.success_probability * (m.toBaseModel.w_duopoly - m.toBaseModel.w_with_innovation)) /
    (m.success_probability * (m.toBaseModel.w_duopoly - m.toBaseModel.w_without_innovation) -
      m.development_costs)

/-- Property asset_distribution_threshold (Condition 3, Phi). -/
def asset_distribution_threshold (m : MergerPolicyModel) : ℚ :=
  (m.success_probability *
      (m.incumbent_profit_with_innovation - m.incumbent_profit_duopoly -
        m.startup_profit_duopoly)) /
    (m.success_probability *
        (m.incumbent_profit_with_innovation - m.incumbent_profit_duopoly) -
      m.development_costs)

/-- Property asset_distribution_threshold_laissez_faire (Condition 4, Phi-T). -/
def asset_distribution_threshold_laissez_faire (m : MergerPolicyModel) : ℚ :=
  (m.success_probability *
      (m.incumbent_profit_without_innovation - m.incumbent_profit_with_innovation) +
    m.development_costs) /
    (m.success_probability *
      (m.incumbent_profit_without_innovation + m.startup_profit_duopoly -
        m.incumbent_profit_with_innovation))

/-- Property asset_distribution_threshold_intermediate (A-3, Phi-prime). -/
def asset_distribution_threshold_intermediate (m : MergerPolicyModel) : ℚ :=
  (m.success_probability *
      (m.incumbent_profit_without_innovation - m.incumbent_profit_duopoly -
        m.startup_profit_duopoly) +
    m.development_costs) /
    (m.success_probability *
      (m.incumbent_profit_without_innovation - m.incumbent_profit_duopoly))

/-- Method _check_asset_distribution_thresholds: the assert on Phi always,
then the regime-dependent range assert, mirroring the if/elif chain. -/
def check_asset_distribution_thresholds (m : MergerPolicyModel) : Except PyExc Unit := do
  pyAssert (0 < m.asset_distribution_threshold ∧ m.asset_distribution_threshold < 1)
    "Violates A.2 (has to be between 0 and 1)"
  if m.merger_policy = MergerPolicies.Strict then
    pyAssert (0 < m.asset_distribution_threshold_strict ∧
        m.asset_distribution_threshold_strict < 1)
      "Violates Condition 2 (has to be between 0 and 1)"
  else if m.merger_policy = MergerPolicies.Intermediate_late_takeover_prohibited ∧
      m.is_incumbent_expected_to_shelve = true then
    pyAssert (0 ≤ m.asset_distribution_threshold_intermediate ∧
        m.asset_distribution_threshold_intermediate < 1)
      "Violates Condition A-3 (has to be between 0 and 1)"
  else if m.merger_policy = MergerPolicies.Laissez_faire ∧
      m.is_incumbent_expected_to_shelve = true then
    pyAssert (0 < m.asset_distribution_threshold_laissez_faire ∧
        m.asset_distribution_threshold_laissez_faire < 1)
      "Violates Condition 4 (has to be between 0 and 1)"
  else pure ()

/-- Method _set_takeovers.  The source first asserts that no outcome field is
already set (st is the previously stored outcome, None on every call of the
solver), then asserts that not both takeovers are bid and accepted, then
stores the bid attempts and the acceptance-derived takeover flags. -/
def set_takeovers (st : Option Outcome) (early_takeover late_takeover : Takeover)
    (early_takeover_accepted late_takeover_accepted : Bool) : Except PyExc Outcome :=
  if st.isSome then Except.error ⟨PyExcType.AssertionError, ""⟩
  else if (early_takeover = Takeover.Separating ∨ early_takeover = Takeover.Pooling) ∧
      early_takeover_accepted = true ∧
      (late_takeover = Takeover.Separating ∨ late_takeover = Takeover.Pooling) ∧
      late_takeover_accepted = true then
    Except.error ⟨PyExcType.AssertionError, "Only one takeover can occur."⟩
  else
    Except.ok
      { early_bid_attempt := early_takeover
        late_bid_attempt := late_takeover
        early_takeover :=
          if early_takeover = Takeover.No ∨ early_takeover_accepted = false then false
          else true
        late_takeover :=
          if late_takeover = Takeover.No ∨ late_takeover_accepted = false then false
          else true }

/-- Method _solve_game_laissez_faire. -/
def solve_game_laissez_faire (m : MergerPolicyModel) : Except PyExc Outcome :=
  if m.is_incumbent_expected_to_shelve then
    if m.asset_threshold_late_takeover_cdf ≥ m.asset_distribution_threshold_laissez_faire then
      if m.is_startup_credit_rationed = false ∧ m.development_success = true then
        set_takeovers none Takeover.No Takeover.Pooling true true
      else
        set_takeovers none Takeover.No Takeover.No true true
    else
      set_takeovers none Takeover.Pooling Takeover.No true true
  else
    if m.is_startup_credit_rationed then
      set_takeovers none Takeover.Separating Takeover.No true true
    else
      if m.development_success then
        set_takeovers none Takeover.Separating Takeover.Pooling false true
      else
        set_takeovers none Takeover.Separating Takeover.No false true

/-- Method _solve_game_late_takeover_allowed. -/
def solve_game_late_takeover_allowed (m : MergerPolicyModel) : Except PyExc Outcome :=
  if m.is_incumbent_expected_to_shelve then
    if m.is_startup_credit_rationed = false ∧ m.development_success = true then
      set_takeovers none Takeover.No Takeover.Pooling true true
    else
      set_takeovers none Takeover.No Takeover.No true true
  else
    if m.is_startup_credit_rationed then
      set_takeovers none Takeover.Separating Takeover.No true true
    else
      if m.development_success then
        set_takeovers none Takeover.Separating Takeover.Pooling false true
      else
        set_takeovers none Takeover.Separating Takeover.No false true

/-- Method _solve_game_late_takeover_prohibited. -/
def solve_game_late_takeover_prohibited (m : MergerPolicyModel) : Except PyExc Outcome :=
  if m.is_incumbent_expected_to_shelve then
    if m.asset_threshold_cdf ≥ m.asset_distribution_threshold_intermediate then
      set_takeovers none Takeover.No Takeover.No true true
    else
      set_takeovers none Takeover.Pooling Takeover.No true true
  else
    if m.asset_threshold_cdf ≥ m.asset_distribution_threshold then
      if m.is_startup_credit_rationed then
        set_takeovers none Takeover.Separating Takeover.No true true
      else
        set_takeovers none Takeover.Separating Takeover.No false true
    else
      set_takeovers none Takeover.Pooling Takeover.No true true

/-- Method _solve_game_strict_merger_policy. -/
def solve_game_strict_merger_policy (m : MergerPolicyModel) : Except PyExc Outcome :=
  if m.is_incumbent_expected_to_shelve then
    set_takeovers none Takeover.No Takeover.No true true
  else
    if m.asset_distribution_threshold_strict < m.asset_threshold_cdf ∧
        m.asset_threshold_cdf <
          max m.asset_distribution_threshold m.asset_distribution_threshold_strict then
      set_takeovers none Takeover.Pooling Takeover.No true true
    else
      if m.is_startup_credit_rationed then
        set_takeovers none Takeover.Separating Takeover.No true true
      else
        set_takeovers none Takeover.Separating Takeover.No false true

/-- Method _solve_game: dispatch on the classified merger policy. -/
def solve_game (m : MergerPolicyModel) : Except PyExc Outcome :=
  if m.merger_policy = MergerPolicies.Strict then m.solve_game_strict_merger_policy
  else if m.merger_policy = MergerPolicies.Intermediate_late_takeover_prohibited then
    m.solve_game_late_takeover_prohibited
  else if m.merger_policy = MergerPolicies.Intermediate_late_takeover_allowed then
    m.solve_game_late_takeover_allowed
  else m.solve_game_laissez_faire

/-- The solved terminal state read by the property accessors (the error case
is never reached; see the totality theorem for claim C9). -/
def outcome (m : MergerPolicyModel) : Outcome :=
  match m.solve_game with
  | Except.ok o => o
  | Except.error _ => ⟨Takeover.No, Takeover.No, false, false⟩

/-- Property get_early_bidding_type. -/
def get_early_bidding_type (m : MergerPolicyModel) : Takeover :=
  m.outcome.early_bid_attempt

/-- Property get_late_bidding_type. -/
def get_late_bidding_type (m : MergerPolicyModel) : Takeover :=
  m.outcome.late_bid_attempt

/-- Property is_early_takeover. -/
def is_early_takeover (m : MergerPolicyModel) : Bool := m.outcome.early_takeover

/-- Property is_late_takeover. -/
def is_late_takeover (m : MergerPolicyModel) : Bool := m.outcome.late_takeover

/-- Property is_owner_investing (Models.py lines 475-499). -/
def is_owner_investing (m : MergerPolicyModel) : Bool :=
  (!m.is_startup_credit_rationed && !m.is_early_takeover) ||
    (!m.is_incumbent_expected_to_shelve && m.is_early_takeover)

/-- Property is_development_successful. -/
def is_development_successful (m : MergerPolicyModel) : Bool :=
  m.is_owner_investing && m.development_success

/-- Method summary (Models.py lines 806-832).  The source builds the
dictionary value of the key late_bidding_type from get_early_bidding_type
(line 827), although its docstring documents that key as the bidding type of
the incumbent at t = 2. -/
def summary (m : MergerPolicyModel) : Summary :=
  { credit_rationed := m.is_startup_credit_rationed
    early_bidding_type := m.get_early_bidding_type
    late_bidding_type := m.get_early_bidding_type
    development_attempt := m.is_owner_investing
    development_outcome := m.is_development_successful
    early_takeover := m.is_early_takeover
    late_takeover := m.is_late_takeover }

/-- MergerPolicyModel.__init__: the BaseModel checks, then the
asset-distribution threshold checks, then the solver. -/
def construct (m : MergerPolicyModel) : Except PyExc Outcome := do
  m.toBaseModel.check_preconditions
  m.toBaseModel.check_postconditions
  m.check_asset_distribution_thresholds
  m.solve_game

end MergerPolicyModel

namespace OptimalMergerPolicy

/-- Property asset_distribution_threshold_intermediate_approval_despite_shelving
(Condition 5, Lambda). -/
def asset_distribution_threshold_intermediate_approval_despite_shelving
    (m : MergerPolicyModel) : ℚ :=
  (m.success_probability *
        (m.toBaseModel.w_with_innovation - m.toBaseModel.w_without_innovation) -
      m.development_costs -
    (m.toBaseModel.w_duopoly - m.toBaseModel.w_with_innovation)) /
    (m.success_probability *
        (m.toBaseModel.w_with_innovation - m.toBaseModel.w_without_innovation) -
      m.development_costs)

/-- Method is_strict_optimal (Condition 6). -/
def is_strict_optimal (m : MergerPolicyModel) : Bool :=
  (m.success_probability * (m.toBaseModel.w_duopoly - m.toBaseModel.w_without_innovation) -
      m.development_costs) /
    (m.success_probability *
        (m.toBaseModel.w_with_innovation - m.toBaseModel.w_without_innovation) -
      m.development_costs) ≥
    (1 - m.asset_threshold_late_takeover_cdf) / (1 - m.asset_threshold_cdf)

/-- Method is_financial_imperfection_severe: F(A-bar-T) at least Phi-T. -/
def is_financial_imperfection_severe (m : MergerPolicyModel) : Bool :=
  m.asset_threshold_late_takeover_cdf ≥ m.asset_distribution_threshold_laissez_faire

/-- Method is_shelving_after_early_takeover_optimal: F(A-bar-T) at least
Lambda. -/
def is_shelving_after_early_takeover_optimal (m : MergerPolicyModel) : Bool :=
  m.asset_threshold_late_takeover_cdf ≥
    asset_distribution_threshold_intermediate_approval_despite_shelving m

/-- Method is_laissez_faire_optimal (Proposition 4). -/
def is_laissez_faire_optimal (m : MergerPolicyModel) : Bool :=
  m.is_incumbent_expected_to_shelve && is_financial_imperfection_severe m &&
    is_shelving_after_early_takeover_optimal m && !(is_strict_optimal m)

/-- Method is_intermediate_optimal. -/
def is_intermediate_optimal (m : MergerPolicyModel) : Bool :=
  m.is_incumbent_expected_to_shelve && !(is_shelving_after_early_takeover_optimal m) &&
    !(is_strict_optimal m)

/-- Method get_optimal_merger_policy: laissez-faire first, then intermediate,
else strict. -/
def get_optimal_merger_policy (m : MergerPolicyModel) : MergerPolicies :=
  if is_laissez_faire_optimal m then MergerPolicies.Laissez_faire
  else if is_intermediate_optimal m then MergerPolicies.Intermediate_late_takeover_allowed
  else MergerPolicies.Strict

end OptimalMergerPolicy

/-- Computable stand-in for the standard normal CDF of
MergerPolicyModel._get_cdf_value: strictly increasing with range (0,1) and
value 1/2 at 0, the only properties of the distribution that the solver
relies on. -/
def normCdfModel (x : ℚ) : ℚ := 1 / 2 + x / (2 * (1 + |x|))

/-- The default parameter set of BaseModel.__init__ (also the concrete
scenario parameters of the specification). -/
def baseDefault : BaseModel :=
  { tolerated_harm := 0
    development_costs := 1/10
    startup_assets := 1/20
    success_probability := 7/10
    development_success := true
    private_benefit := 1/20
    cs_without_innovation := 1/5
    incumbent_profit_without_innovation := 2/5
    cs_duopoly := 1/2
    incumbent_profit_duopoly := 1/5
    startup_profit_duopoly := 1/5
    cs_with_innovation := 3/10
    incumbent_profit_with_innovation := 1/2 }

/-- The default parameters solved with the modelled CDF. -/
def mDefault : MergerPolicyModel := { toBaseModel := baseDefault, cdf := normCdfModel }

/-- A valid parameter set whose harm thresholds satisfy h2 < h1: duopoly
consumer surplus barely above the level forced by the welfare ranking while
the incumbent profit under duopoly is negative, so A-bar-T lies above A-bar. -/
def mThresholdGap : MergerPolicyModel :=
  { tolerated_harm := 3
    development_costs := 8/5
    startup_assets := 4/5
    success_probability := 1
    development_success := true
    private_benefit := 3/2
    cs_without_innovation := 0
    incumbent_profit_without_innovation := 1
    cs_duopoly := 111/10
    incumbent_profit_duopoly := -2
    startup_profit_duopoly := 3
    cs_with_innovation := 10
    incumbent_profit_with_innovation := 2
    cdf := normCdfModel }

/-- The default parameters with tolerated harm 6/100: scenario 4 of the
specification (Intermediate with late takeover allowed, late pooling bid). -/
def mScenario4 : MergerPolicyModel :=
  { baseDefault with tolerated_harm := 6/100, cdf := normCdfModel }

/-- A valid parameter set solved under laissez-faire in which the incumbent
is not expected to shelve and the startup is credit-rationed, so the early
bid is separating and is accepted. -/
def mSeparating : MergerPolicyModel :=
  { tolerated_harm := 100
    development_costs := 1
    startup_assets := 1/10
    success_probability := 1
    development_success := true
    private_benefit := 4/5
    cs_without_innovation := 0
    incumbent_profit_without_innovation := 1/2
    cs_duopoly := 1
    incumbent_profit_duopoly := 0
    startup_profit_duopoly := 3/2
    cs_with_innovation := 0
    incumbent_profit_with_innovation := 8/5
    cdf := normCdfModel }

/-- The default parameters with duopoly consumer surplus lowered to 1/5:
every precondition assert passes but the welfare-ranking postcondition
fails, because no precondition constrains the duopoly consumer surplus. -/
def baseLowDuopolySurplus : BaseModel :=
  { baseDefault with cs_duopoly := 1/5 }

/-- The default parameters with the incumbent profit with innovation raised
to 7/10, violating assumption A2 (and only A2 among the checks that run
before it). -/
def mBadA2 : MergerPolicyModel :=
  { baseDefault with incumbent_profit_with_innovation := 7/10, cdf := normCdfModel }

/-- A computation raises only AssertionError: every error it can return
carries the exception class AssertionError. -/
def errIsAssertion {α : Type} (x : Except PyExc α) : Prop :=
  ∀ e : PyExc, x = Except.error e → e.excType = PyExcType.AssertionError

lemma errIsAssertion_ok {α : Type} (a : α) : errIsAssertion (Except.ok a) := by
  intro e he
  exact absurd he (by simp)

lemma errIsAssertion_pyAssert (c : Prop) [Decidable c] (msg : String) :
    errIsAssertion (pyAssert c msg) := by
  intro e he
  unfold pyAssert at he
  by_cases hc : c
  · rw [if_pos hc] at he
    exact absurd he (by simp)
  · rw [if_neg hc] at he
    cases he
    rfl

lemma errIsAssertion_bind {α β : Type} {x : Except PyExc α} {f : α → Except PyExc β}
    (hx : errIsAssertion x) (hf : ∀ a, errIsAssertion (f a)) :
    errIsAssertion (x >>= f) := by
  intro e he
  cases x with
  | ok a => exact hf a e he
  | error err =>
    have hb : (Except.error err : Except PyExc α) >>= f = Except.error err := rfl
    rw [hb] at he
    injection he with h2
    exact h2 ▸ hx err rfl

lemma errIsAssertion_set_takeovers (st : Option Outcome) (a b : Takeover)
    (ea la : Bool) : errIsAssertion (MergerPolicyModel.set_takeovers st a b ea la) := by
  intro e he
  unfold MergerPolicyModel.set_takeovers at he
  split at he
  · cases he
    rfl
  · split at he
    · cases he
      rfl
    · exact absurd he (by simp)

lemma errIsAssertion_check_preconditions (m : BaseModel) :
    errIsAssertion m.check_preconditions := by
  unfold BaseModel.check_preconditions
  repeat refine errIsAssertion_bind (errIsAssertion_pyAssert _ _) (fun _ => ?_)
  exact errIsAssertion_pyAssert _ _

lemma errIsAssertion_check_postconditions (m : BaseModel) :
    errIsAssertion m.check_postconditions := by
  unfold BaseModel.check_postconditions
  exact errIsAssertion_bind (errIsAssertion_pyAssert _ _)
    (fun _ => errIsAssertion_pyAssert _ _)

lemma errIsAssertion_check_thresholds (m : MergerPolicyModel) :
    errIsAssertion m.check_asset_distribution_thresholds := by
  unfold MergerPolicyModel.check_asset_distribution_thresholds
  refine errIsAssertion_bind (errIsAssertion_pyAssert _ _) (fun _ => ?_)
  repeat' split
  all_goals
    first
      | exact errIsAssertion_pyAssert _ _
      | exact errIsAssertion_ok ()

lemma errIsAssertion_solve_game (m : MergerPolicyModel) :
    errIsAssertion m.solve_game := by
  unfold MergerPolicyModel.solve_game MergerPolicyModel.solve_game_strict_merger_policy
    MergerPolicyModel.solve_game_late_takeover_prohibited
    MergerPolicyModel.solve_game_late_takeover_allowed
    MergerPolicyModel.solve_game_laissez_faire
  repeat' split
  all_goals exact errIsAssertion_set_takeovers _ _ _ _ _

/-- Evaluation of _set_takeovers on each argument tuple that the solver
passes: no bid at all. -/
lemma set_takeovers_no_no :
    MergerPolicyModel.set_takeovers none Takeover.No Takeover.No true true =
      Except.ok ⟨Takeover.No, Takeover.No, false, false⟩ := rfl

/-- Accepted early pooling bid. -/
lemma set_takeovers_pooling_early :
    MergerPolicyModel.set_takeovers none Takeover.Pooling Takeover.No true true =
      Except.ok ⟨Takeover.Pooling, Takeover.No, true, false⟩ := rfl

/-- Accepted late pooling bid. -/
lemma set_takeovers_pooling_late :
    MergerPolicyModel.set_takeovers none Takeover.No Takeover.Pooling true true =
      Except.ok ⟨Takeover.No, Takeover.Pooling, false, true⟩ := rfl

/-- Accepted early separating bid. -/
lemma set_takeovers_separating_accepted :
    MergerPolicyModel.set_takeovers none Takeover.Separating Takeover.No true true =
      Except.ok ⟨Takeover.Separating, Takeover.No, true, false⟩ := rfl

/-- Rejected early separating bid, no late bid. -/
lemma set_takeovers_separating_rejected :
    MergerPolicyModel.set_takeovers none Takeover.Separating Takeover.No false true =
      Except.ok ⟨Takeover.Separating, Takeover.No, false, false⟩ := rfl

/-- Rejected early separating bid followed by an accepted late pooling bid. -/
lemma set_takeovers_separating_then_pooling :
    MergerPolicyModel.set_takeovers none Takeover.Separating Takeover.Pooling false true =
      Except.ok ⟨Takeover.Separating, Takeover.Pooling, false, true⟩ := rfl

/-- Every branch of the solver ends in one of six outcomes; a separating
early bid is accepted exactly on the branches where the startup is
credit-rationed. -/
lemma solve_game_cases (m : MergerPolicyModel) :
    m.solve_game = Except.ok ⟨Takeover.No, Takeover.No, false, false⟩ ∨
    m.solve_game = Except.ok ⟨Takeover.Pooling, Takeover.No, true, false⟩ ∨
    m.solve_game = Except.ok ⟨Takeover.No, Takeover.Pooling, false, true⟩ ∨
    (m.solve_game = Except.ok ⟨Takeover.Separating, Takeover.No, true, false⟩ ∧
      m.is_startup_credit_rationed = true) ∨
    (m.solve_game = Except.ok ⟨Takeover.Separating, Takeover.No, false, false⟩ ∧
      m.is_startup_credit_rationed = false) ∨
    (m.solve_game = Except.ok ⟨Takeover.Separating, Takeover.Pooling, false, true⟩ ∧
      m.is_startup_credit_rationed = false) := by
  unfold MergerPolicyModel.solve_game MergerPolicyModel.solve_game_strict_merger_policy
    MergerPolicyModel.solve_game_late_takeover_prohibited
    MergerPolicyModel.solve_game_late_takeover_allowed
    MergerPolicyModel.solve_game_laissez_faire
  repeat' split
  all_goals first
    | exact Or.inl rfl
    | exact Or.inr (Or.inl rfl)
    | exact Or.inr (Or.inr (Or.inl rfl))
    | (rename_i h; exact Or.inr (Or.inr (Or.inr (Or.inl ⟨rfl, h⟩))))
    | (rename_i h;
        exact Or.inr (Or.inr (Or.inr (Or.inr (Or.inl ⟨rfl, Bool.of_not_eq_true h⟩)))))
    | (rename_i h h2;
        exact Or.inr (Or.inr (Or.inr (Or.inr (Or.inl ⟨rfl, Bool.of_not_eq_true h⟩)))))
    | (rename_i h h2;
        exact Or.inr (Or.inr (Or.inr (Or.inr (Or.inr ⟨rfl, Bool.of_not_eq_true h⟩)))))

lemma outcome_eq_of (m : MergerPolicyModel) {o : Outcome}
    (h : m.solve_game = Except.ok o) : m.outcome = o := by
  unfold MergerPolicyModel.outcome
  rw [h]

lemma pyAssert_pos {c : Prop} [Decidable c] (h : c) (msg : String) :
    pyAssert c msg = Except.ok () := by
  unfold pyAssert
  exact if_pos h

lemma except_bind_ok {α β : Type} (a : α) (f : α → Except PyExc β) :
    (Except.ok a : Except PyExc α) >>= f = f a := rfl

lemma check_preconditions_ok (b : BaseModel) (h : b.preconditions_hold) :
    b.check_preconditions = Except.ok () := by
  obtain ⟨p1, p2, p3, p4, p5, p6, p7, p8, p9, p10, p11⟩ := h
  unfold BaseModel.check_preconditions
  simp only [pyAssert_pos p1, pyAssert_pos p2, pyAssert_pos p3, pyAssert_pos p4,
    pyAssert_pos p5, pyAssert_pos p6, pyAssert_pos p7, pyAssert_pos p8, pyAssert_pos p9,
    pyAssert_pos p10, pyAssert_pos p11, except_bind_ok]

lemma check_postconditions_ok (b : BaseModel) (h : b.postconditions_hold) :
    b.check_postconditions = Except.ok () := by
  obtain ⟨q1, q2⟩ := h
  unfold BaseModel.check_postconditions
  simp only [pyAssert_pos q1, pyAssert_pos q2, except_bind_ok]

lemma pyAssert_neg {c : Prop} [Decidable c] (h : ¬c) (msg : String) :
    pyAssert c msg = Except.error ⟨PyExcType.AssertionError, msg⟩ := by
  unfold pyAssert
  exact if_neg h

lemma except_bind_error {α β : Type} (e : PyExc) (f : α → Except PyExc β) :
    (Except.error e : Except PyExc α) >>= f = Except.error e := rfl

lemma construct_eq_solve (m : MergerPolicyModel)
    (hpre : m.toBaseModel.preconditions_hold) (hpost : m.toBaseModel.postconditions_hold)
    (hth : m.check_asset_distribution_thresholds = Except.ok ()) :
    m.construct = m.solve_game := by
  unfold MergerPolicyModel.construct
  rw [check_preconditions_ok _ hpre, except_bind_ok, check_postconditions_ok _ hpost,
    except_bind_ok, hth, except_bind_ok]

lemma thresholds_ok_intermediate_shelve (m : MergerPolicyModel)
    (hpol : m.merger_policy = MergerPolicies.Intermediate_late_takeover_prohibited)
    (hsh : m.is_incumbent_expected_to_shelve = true)
    (hphi : 0 < m.asset_distribution_threshold ∧ m.asset_distribution_threshold < 1)
    (hphip : 0 ≤ m.asset_distribution_threshold_intermediate ∧
      m.asset_distribution_threshold_intermediate < 1) :
    m.check_asset_distribution_thresholds = Except.ok () := by
  unfold MergerPolicyModel.check_asset_distribution_thresholds
  rw [pyAssert_pos hphi, except_bind_ok, hpol, if_neg (by decide),
    if_pos ⟨rfl, hsh⟩, pyAssert_pos hphip]

lemma thresholds_ok_allowed (m : MergerPolicyModel)
    (hpol : m.merger_policy = MergerPolicies.Intermediate_late_takeover_allowed)
    (hphi : 0 < m.asset_distribution_threshold ∧ m.asset_distribution_threshold < 1) :
    m.check_asset_distribution_thresholds = Except.ok () := by
  unfold MergerPolicyModel.check_asset_distribution_thresholds
  rw [pyAssert_pos hphi, except_bind_ok, hpol, if_neg (by decide),
    if_neg (by intro hc; exact absurd hc.1 (by decide)),
    if_neg (by intro hc; exact absurd hc.1 (by decide))]
  rfl

lemma thresholds_ok_laissez_faire_invest (m : MergerPolicyModel)
    (hpol : m.merger_policy = MergerPolicies.Laissez_faire)
    (hsh : m.is_incumbent_expected_to_shelve = false)
    (hphi : 0 < m.asset_distribution_threshold ∧ m.asset_distribution_threshold < 1) :
    m.check_asset_distribution_thresholds = Except.ok () := by
  unfold MergerPolicyModel.check_asset_distribution_thresholds
  rw [pyAssert_pos hphi, except_bind_ok, hpol, if_neg (by decide),
    if_neg (by intro hc; exact absurd hc.1 (by decide)),
    if_neg (by intro hc; rw [hsh] at hc; exact absurd hc.2 (by decide))]
  rfl

lemma solve_eq_prohibited_shelve_nobid (m : MergerPolicyModel)
    (hpol : m.merger_policy = MergerPolicies.Intermediate_late_takeover_prohibited)
    (hsh : m.is_incumbent_expected_to_shelve = true)
    (hge : m.asset_threshold_cdf ≥ m.asset_distribution_threshold_intermediate) :
    m.solve_game = Except.ok ⟨Takeover.No, Takeover.No, false, false⟩ := by
  unfold MergerPolicyModel.solve_game MergerPolicyModel.solve_game_late_takeover_prohibited
  rw [hpol, if_neg (by decide), if_pos rfl, hsh, if_pos rfl, if_pos hge]
  rfl

lemma solve_eq_allowed_shelve_late_pooling (m : MergerPolicyModel)
    (hpol : m.merger_policy = MergerPolicies.Intermediate_late_takeover_allowed)
    (hsh : m.is_incumbent_expected_to_shelve = true)
    (hrat : m.is_startup_credit_rationed = false)
    (hdev : m.development_success = true) :
    m.solve_game = Except.ok ⟨Takeover.No, Takeover.Pooling, false, true⟩ := by
  unfold MergerPolicyModel.solve_game MergerPolicyModel.solve_game_late_takeover_allowed
  rw [hpol, if_neg (by decide), if_neg (by decide), if_pos rfl, hsh, if_pos rfl,
    if_pos ⟨hrat, hdev⟩, set_takeovers_pooling_late]

lemma solve_eq_laissez_faire_separating (m : MergerPolicyModel)
    (hpol : m.merger_policy = MergerPolicies.Laissez_faire)
    (hsh : m.is_incumbent_expected_to_shelve = false)
    (hrat : m.is_startup_credit_rationed = true) :
    m.solve_game = Except.ok ⟨Takeover.Separating, Takeover.No, true, false⟩ := by
  unfold MergerPolicyModel.solve_game MergerPolicyModel.solve_game_laissez_faire
  rw [hpol, if_neg (by decide), if_neg (by decide), if_neg (by decide), hsh,
    if_neg (by decide), hrat, if_pos rfl, set_takeovers_separating_accepted]

/-- Claim C2: get_optimal_merger_policy returns Laissez-faire exactly when
the incumbent is expected to shelve, financial imperfections are severe
(Phi-T at most F(A-bar-T)), shelving after an early takeover is optimal
(Lambda at most F(A-bar-T)) and strict is not optimal; otherwise
Intermediate (late takeover allowed) exactly when the incumbent is expected
to shelve, shelving after an early takeover is not optimal and strict is not
optimal; otherwise Strict; and it never returns Intermediate (late takeover
prohibited). -/
theorem C2_optimal_policy_selection : ∀ m : MergerPolicyModel,
    (OptimalMergerPolicy.is_laissez_faire_optimal m = true ↔
      (m.is_incumbent_expected_to_shelve = true ∧
        m.asset_distribution_threshold_laissez_faire ≤
          m.asset_threshold_late_takeover_cdf ∧
        OptimalMergerPolicy.asset_distribution_threshold_intermediate_approval_despite_shelving
            m ≤ m.asset_threshold_late_takeover_cdf ∧
        OptimalMergerPolicy.is_strict_optimal m = false)) ∧
    (OptimalMergerPolicy.is_intermediate_optimal m = true ↔
      (m.is_incumbent_expected_to_shelve = true ∧
        m.asset_threshold_late_takeover_cdf <
          OptimalMergerPolicy.asset_distribution_threshold_intermediate_approval_despite_shelving
            m ∧
        OptimalMergerPolicy.is_strict_optimal m = false)) ∧
    (OptimalMergerPolicy.get_optimal_merger_policy m = MergerPolicies.Laissez_faire ↔
      OptimalMergerPolicy.is_laissez_faire_optimal m = true) ∧
    (OptimalMergerPolicy.get_optimal_merger_policy m =
        MergerPolicies.Intermediate_late_takeover_allowed ↔
      (OptimalMergerPolicy.is_laissez_faire_optimal m = false ∧
        OptimalMergerPolicy.is_intermediate_optimal m = true)) ∧
    (OptimalMergerPolicy.get_optimal_merger_policy m = MergerPolicies.Strict ↔
      (OptimalMergerPolicy.is_laissez_faire_optimal m = false ∧
        OptimalMergerPolicy.is_intermediate_optimal m = false)) ∧
    OptimalMergerPolicy.get_optimal_merger_policy m ≠
      MergerPolicies.Intermediate_late_takeover_prohibited := by
  intro m
  refine ⟨?_, ?_, ?_⟩
  · unfold OptimalMergerPolicy.is_laissez_faire_optimal
      OptimalMergerPolicy.is_financial_imperfection_severe
      OptimalMergerPolicy.is_shelving_after_early_takeover_optimal
    simp [Bool.and_eq_true, Bool.not_eq_true', decide_eq_true_eq, ge_iff_le, and_assoc]
  · unfold OptimalMergerPolicy.is_intermediate_optimal
      OptimalMergerPolicy.is_shelving_after_early_takeover_optimal
    simp [Bool.and_eq_true, Bool.not_eq_true', decide_eq_true_eq, decide_eq_false_iff_not,
      ge_iff_le, not_le, and_assoc]
  · unfold OptimalMergerPolicy.get_optimal_merger_policy
    cases hA : OptimalMergerPolicy.is_laissez_faire_optimal m <;>
      cases hB : OptimalMergerPolicy.is_intermediate_optimal m <;>
        simp [hA, hB]

/-- Claim C3: for every solved model, at most one of is_early_takeover and
is_late_takeover is true, in every regime and branch of the solver. -/
theorem C3_takeover_mutual_exclusivity : ∀ m : MergerPolicyModel,
    (m.is_early_takeover && m.is_late_takeover) = false := by
  intro m
  unfold MergerPolicyModel.is_early_takeover MergerPolicyModel.is_late_takeover
  rcases solve_game_cases m with h | h | h | ⟨h, _⟩ | ⟨h, _⟩ | ⟨h, _⟩ <;>
    rw [outcome_eq_of m h] <;> rfl

/-- Claim C4: the prototype's owner at t = 1 (the incumbent after an early
takeover, otherwise the startup) invests iff the startup is not
credit-rationed when the owner is the startup, and iff shelving is not
expected when the owner is the incumbent; development succeeds iff the owner
invests and the exogenous development_success flag is set. -/
theorem C4_investment_decision : ∀ m : MergerPolicyModel,
    m.is_owner_investing =
      (if m.is_early_takeover then !m.is_incumbent_expected_to_shelve
       else !m.is_startup_credit_rationed) ∧
    m.is_development_successful = (m.is_owner_investing && m.development_success) := by
  intro m
  constructor
  · unfold MergerPolicyModel.is_owner_investing
    cases h : m.is_early_takeover <;> simp [h]
  · rfl

/-- Claim C7 (code bug): on the specification's scenario 4 input (default
parameters with tolerated harm 6/100) the summary record's late_bidding_type
field is No although the model's late bidding type is Pooling, because
Models.py line 827 fills that key from get_early_bidding_type; the record
also has no set_policy or optimal_policy field. -/
theorem C7_summary_late_bidding_type_bug :
    okB mScenario4.construct = true ∧
    (mScenario4.summary).late_bidding_type = Takeover.No ∧
    mScenario4.get_late_bidding_type = Takeover.Pooling ∧
    (mScenario4.summary).late_bidding_type = mScenario4.get_early_bidding_type := by
  have hF : mScenario4.asset_threshold_cdf = 51/101 := by
    norm_num [mScenario4, baseDefault, MergerPolicyModel.asset_threshold_cdf,
      MergerPolicyModel.asset_threshold, normCdfModel, abs]
  have hFT : mScenario4.asset_threshold_late_takeover_cdf = 5/12 := by
    norm_num [mScenario4, baseDefault, MergerPolicyModel.asset_threshold_late_takeover_cdf,
      MergerPolicyModel.asset_threshold_late_takeover, normCdfModel, abs]
  have hh0 : mScenario4.calculate_h0 = 73/5050 := by
    rw [MergerPolicyModel.calculate_h0, hF]
    norm_num [mScenario4, baseDefault, BaseModel.w_duopoly, BaseModel.w_with_innovation,
      BaseModel.w_without_innovation, max_def]
  have hh1 : mScenario4.calculate_h1 = 11/202 := by
    rw [MergerPolicyModel.calculate_h1, hF]
    norm_num [mScenario4, baseDefault, BaseModel.w_duopoly, BaseModel.w_without_innovation]
  have hh2 : mScenario4.calculate_h2 = 1/10 := by
    rw [MergerPolicyModel.calculate_h2, hFT]
    norm_num [mScenario4, baseDefault, BaseModel.w_duopoly, BaseModel.w_with_innovation,
      BaseModel.w_without_innovation, max_def]
  have hpol : mScenario4.merger_policy =
      MergerPolicies.Intermediate_late_takeover_allowed := by
    rw [MergerPolicyModel.merger_policy, hh0, hh1, hh2]
    norm_num [mScenario4, baseDefault]
  have hsh : mScenario4.is_incumbent_expected_to_shelve = true := by
    norm_num [mScenario4, baseDefault, MergerPolicyModel.is_incumbent_expected_to_shelve,
      MergerPolicyModel.incumbent_expected_additional_profit_from_innovation]
  have hrat : mScenario4.is_startup_credit_rationed = false := by
    rw [MergerPolicyModel.is_startup_credit_rationed, hpol, if_neg (by decide)]
    norm_num [mScenario4, baseDefault, MergerPolicyModel.asset_threshold_late_takeover]
  have hsolve : mScenario4.solve_game =
      Except.ok ⟨Takeover.No, Takeover.Pooling, false, true⟩ :=
    solve_eq_allowed_shelve_late_pooling mScenario4 hpol hsh hrat rfl
  have hout := outcome_eq_of mScenario4 hsolve
  have hconstruct : mScenario4.construct = mScenario4.solve_game := by
    refine construct_eq_solve mScenario4 (by norm_num [BaseModel.preconditions_hold,
      mScenario4, baseDefault]) (by norm_num [BaseModel.postconditions_hold, mScenario4,
      baseDefault, BaseModel.w_duopoly, BaseModel.w_with_innovation,
      BaseModel.w_without_innovation]) ?_
    exact thresholds_ok_allowed mScenario4 hpol (by
      norm_num [MergerPolicyModel.asset_distribution_threshold, mScenario4, baseDefault])
  refine ⟨by rw [hconstruct, hsolve]; rfl, ?_, ?_, ?_⟩ <;>
    simp [MergerPolicyModel.summary, MergerPolicyModel.get_late_bidding_type,
      MergerPolicyModel.get_early_bidding_type, hout]

/-- Claim C8: whenever the early bidding type is Separating, the early
takeover completes iff the startup is credit-rationed. -/
theorem C8_separating_bid_completion : ∀ m : MergerPolicyModel,
    m.get_early_bidding_type = Takeover.Separating →
      m.is_early_takeover = m.is_startup_credit_rationed := by
  intro m hsep
  unfold MergerPolicyModel.get_early_bidding_type at hsep
  unfold MergerPolicyModel.is_early_takeover
  rcases solve_game_cases m with h | h | h | ⟨h, hr⟩ | ⟨h, hr⟩ | ⟨h, hr⟩ <;>
    rw [outcome_eq_of m h] at hsep ⊢ <;>
      first
        | exact absurd hsep (by decide)
        | rw [hr]

/-- Witness for claim C8 at a concrete laissez-faire model with a separating
early bid accepted by the credit-rationed startup. -/
theorem C8_separating_bid_completion_witness :
    mSeparating.get_early_bidding_type = Takeover.Separating ∧
    mSeparating.is_early_takeover = mSeparating.is_startup_credit_rationed := by
  have hF : mSeparating.asset_threshold_cdf = 8/13 := by
    norm_num [mSeparating, MergerPolicyModel.asset_threshold_cdf,
      MergerPolicyModel.asset_threshold, normCdfModel, abs]
  have hFT : mSeparating.asset_threshold_late_takeover_cdf = 7/12 := by
    norm_num [mSeparating, MergerPolicyModel.asset_threshold_late_takeover_cdf,
      MergerPolicyModel.asset_threshold_late_takeover, normCdfModel, abs]
  have hh0 : mSeparating.calculate_h0 = 37/130 := by
    rw [MergerPolicyModel.calculate_h0, hF]
    norm_num [mSeparating, BaseModel.w_duopoly, BaseModel.w_with_innovation,
      BaseModel.w_without_innovation, max_def]
  have hh1 : mSeparating.calculate_h1 = 5/13 := by
    rw [MergerPolicyModel.calculate_h1, hF]
    norm_num [mSeparating, BaseModel.w_duopoly, BaseModel.w_without_innovation]
  have hh2 : mSeparating.calculate_h2 = 9/10 := by
    rw [MergerPolicyModel.calculate_h2, hFT]
    norm_num [mSeparating, BaseModel.w_duopoly, BaseModel.w_with_innovation,
      BaseModel.w_without_innovation, max_def]
  have hpol : mSeparating.merger_policy = MergerPolicies.Laissez_faire := by
    rw [MergerPolicyModel.merger_policy, hh0, hh1, hh2]
    norm_num [mSeparating]
  have hsh : mSeparating.is_incumbent_expected_to_shelve = false := by
    norm_num [mSeparating, MergerPolicyModel.is_incumbent_expected_to_shelve,
      MergerPolicyModel.incumbent_expected_additional_profit_from_innovation]
  have hrat : mSeparating.is_startup_credit_rationed = true := by
    rw [MergerPolicyModel.is_startup_credit_rationed, hpol, if_neg (by decide)]
    norm_num [mSeparating, MergerPolicyModel.asset_threshold_late_takeover]
  have hsolve : mSeparating.solve_game =
      Except.ok ⟨Takeover.Separating, Takeover.No, true, false⟩ :=
    solve_eq_laissez_faire_separating mSeparating hpol hsh hrat
  have hsep : mSeparating.get_early_bidding_type = Takeover.Separating := by
    rw [MergerPolicyModel.get_early_bidding_type, outcome_eq_of mSeparating hsolve]
  exact ⟨hsep, C8_separating_bid_completion mSeparating hsep⟩

/-- Claim C9: every solve path sets the terminal outcome fields through a
single successful _set_takeovers call, so the solver never raises and the
subsequent property reads never hit an unset field. -/
theorem C9_solver_totality : ∀ m : MergerPolicyModel, okB m.solve_game = true := by
  intro m
  rcases solve_game_cases m with h | h | h | ⟨h, _⟩ | ⟨h, _⟩ | ⟨h, _⟩ <;>
    rw [h] <;> rfl

lemma mThresholdGap_facts :
    okB mThresholdGap.construct = true ∧
    mThresholdGap.calculate_h1 = 95/22 ∧
    mThresholdGap.calculate_h2 = 47/21 ∧
    mThresholdGap.merger_policy = MergerPolicies.Intermediate_late_takeover_prohibited := by
  have hF : mThresholdGap.asset_threshold_cdf = 6/11 := by
    norm_num [mThresholdGap, MergerPolicyModel.asset_threshold_cdf,
      MergerPolicyModel.asset_threshold, normCdfModel, abs]
  have hFT : mThresholdGap.asset_threshold_late_takeover_cdf = 16/21 := by
    norm_num [mThresholdGap, MergerPolicyModel.asset_threshold_late_takeover_cdf,
      MergerPolicyModel.asset_threshold_late_takeover, normCdfModel, abs]
  have hh0 : mThresholdGap.calculate_h0 = 0 := by
    rw [MergerPolicyModel.calculate_h0, hF]
    norm_num [mThresholdGap, BaseModel.w_duopoly, BaseModel.w_with_innovation,
      BaseModel.w_without_innovation, max_def]
  have hh1 : mThresholdGap.calculate_h1 = 95/22 := by
    rw [MergerPolicyModel.calculate_h1, hF]
    norm_num [mThresholdGap, BaseModel.w_duopoly, BaseModel.w_without_innovation]
  have hh2 : mThresholdGap.calculate_h2 = 47/21 := by
    rw [MergerPolicyModel.calculate_h2, hFT]
    norm_num [mThresholdGap, BaseModel.w_duopoly, BaseModel.w_with_innovation,
      BaseModel.w_without_innovation, max_def]
  have hpol : mThresholdGap.merger_policy =
      MergerPolicies.Intermediate_late_takeover_prohibited := by
    rw [MergerPolicyModel.merger_policy, hh0, hh1, hh2]
    norm_num [mThresholdGap]
  have hsh : mThresholdGap.is_incumbent_expected_to_shelve = true := by
    norm_num [mThresholdGap, MergerPolicyModel.is_incumbent_expected_to_shelve,
      MergerPolicyModel.incumbent_expected_additional_profit_from_innovation]
  have hsolve : mThresholdGap.solve_game =
      Except.ok ⟨Takeover.No, Takeover.No, false, false⟩ := by
    refine solve_eq_prohibited_shelve_nobid mThresholdGap hpol hsh ?_
    rw [hF]
    norm_num [MergerPolicyModel.asset_distribution_threshold_intermediate,
      mThresholdGap]
  have hconstruct : mThresholdGap.construct = mThresholdGap.solve_game := by
    refine construct_eq_solve mThresholdGap
      (by norm_num [BaseModel.preconditions_hold, mThresholdGap])
      (by norm_num [BaseModel.postconditions_hold, mThresholdGap, BaseModel.w_duopoly,
        BaseModel.w_with_innovation, BaseModel.w_without_innovation]) ?_
    refine thresholds_ok_intermediate_shelve mThresholdGap hpol hsh ?_ ?_
    · constructor <;>
        norm_num [MergerPolicyModel.asset_distribution_threshold, mThresholdGap]
    · constructor <;>
        norm_num [MergerPolicyModel.asset_distribution_threshold_intermediate,
          mThresholdGap]
  exact ⟨by rw [hconstruct, hsolve]; rfl, hh1, hh2, hpol⟩

/-- Counterexample for claim C1: a validly constructed model whose tolerated
harm weakly exceeds h2 and is yet classified Intermediate (late takeover
prohibited), not Laissez-faire, because h2 < h1 there. -/
theorem C1_counterexample :
    okB mThresholdGap.construct = true ∧
    mThresholdGap.calculate_h2 ≤ mThresholdGap.tolerated_harm ∧
    mThresholdGap.merger_policy =
      MergerPolicies.Intermediate_late_takeover_prohibited ∧
    mThresholdGap.merger_policy ≠ MergerPolicies.Laissez_faire := by
  obtain ⟨hok, hh1, hh2, hpol⟩ := mThresholdGap_facts
  refine ⟨hok, ?_, hpol, ?_⟩
  · rw [hh2]
    norm_num [mThresholdGap]
  · rw [hpol]
    decide

/-- Claim C1 (amended): under a valid parameterization (positive success
probability, welfare ranking, A4, CDF value below one) the if-chain of
merger_policy classifies Strict iff harm is at most h0, Intermediate (late
takeover prohibited) iff h0 below harm below h1, Intermediate (late takeover
allowed) iff h1 at most harm below h2, and Laissez-faire iff harm is at
least both h1 and h2; the original claim's clause that harm at least h2
alone gives Laissez-faire fails when h2 < h1. -/
theorem C1_regime_classification_amended (m : MergerPolicyModel)
    (hp : 0 < m.success_probability)
    (hW : m.toBaseModel.w_with_innovation < m.toBaseModel.w_duopoly)
    (hA4 : m.development_costs <
      m.success_probability *
        (m.toBaseModel.w_with_innovation - m.toBaseModel.w_without_innovation))
    (hF : m.asset_threshold_cdf < 1) :
    (m.merger_policy = MergerPolicies.Strict ↔
      m.tolerated_harm ≤ m.calculate_h0) ∧
    (m.merger_policy = MergerPolicies.Intermediate_late_takeover_prohibited ↔
      (m.calculate_h0 < m.tolerated_harm ∧ m.tolerated_harm < m.calculate_h1)) ∧
    (m.merger_policy = MergerPolicies.Intermediate_late_takeover_allowed ↔
      (m.calculate_h1 ≤ m.tolerated_harm ∧ m.tolerated_harm < m.calculate_h2)) ∧
    (m.merger_policy = MergerPolicies.Laissez_faire ↔
      (m.calculate_h1 ≤ m.tolerated_harm ∧ m.calculate_h2 ≤ m.tolerated_harm)) := by
  have hd : 0 < m.success_probability *
      (m.toBaseModel.w_duopoly - m.toBaseModel.w_without_innovation) -
      m.development_costs := by nlinarith
  have h1pos : 0 < m.calculate_h1 := by
    unfold MergerPolicyModel.calculate_h1
    have hFpos : 0 < 1 - m.asset_threshold_cdf := by linarith
    exact mul_pos hFpos hd
  have h01 : m.calculate_h0 < m.calculate_h1 := by
    have key : m.calculate_h1 -
        ((1 - m.asset_threshold_cdf) *
            (m.success_probability *
              (m.toBaseModel.w_duopoly - m.toBaseModel.w_with_innovation)) -
          m.asset_threshold_cdf *
            (m.success_probability *
                (m.toBaseModel.w_with_innovation - m.toBaseModel.w_without_innovation) -
              m.development_costs)) =
        m.success_probability *
            (m.toBaseModel.w_with_innovation - m.toBaseModel.w_without_innovation) -
          m.development_costs := by
      unfold MergerPolicyModel.calculate_h1
      ring
    unfold MergerPolicyModel.calculate_h0
    exact max_lt (by linarith) h1pos
  unfold MergerPolicyModel.merger_policy
  by_cases c1 : m.tolerated_harm ≤ m.calculate_h0
  · rw [if_pos c1]
    have n2 : ¬(m.calculate_h0 < m.tolerated_harm) := not_lt.mpr c1
    have n3 : ¬(m.calculate_h1 ≤ m.tolerated_harm) :=
      not_le.mpr (lt_of_le_of_lt c1 h01)
    simp [c1, n2, n3]
  · rw [if_neg c1]
    have h0lt : m.calculate_h0 < m.tolerated_harm := not_le.mp c1
    by_cases c2 : m.tolerated_harm < m.calculate_h1
    · rw [if_pos c2]
      have n3 : ¬(m.calculate_h1 ≤ m.tolerated_harm) := not_le.mpr c2
      simp [c1, c2, h0lt, n3]
    · rw [if_neg c2]
      have hge1 : m.calculate_h1 ≤ m.tolerated_harm := not_lt.mp c2
      by_cases c3 : m.tolerated_harm < m.calculate_h2
      · rw [if_pos c3]
        have n4 : ¬(m.calculate_h2 ≤ m.tolerated_harm) := not_le.mpr c3
        simp [c1, c2, c3, hge1, n4]
      · rw [if_neg c3]
        have hge2 : m.calculate_h2 ≤ m.tolerated_harm := not_lt.mp c3
        simp [c1, c2, c3, hge1, hge2]

/-- Witness for the amended claim C1 at the default parameters. -/
theorem C1_regime_classification_amended_witness :
    (0 < mDefault.success_probability ∧
      mDefault.toBaseModel.w_with_innovation < mDefault.toBaseModel.w_duopoly ∧
      mDefault.development_costs <
        mDefault.success_probability *
          (mDefault.toBaseModel.w_with_innovation -
            mDefault.toBaseModel.w_without_innovation) ∧
      mDefault.asset_threshold_cdf < 1) ∧
    ((mDefault.merger_policy = MergerPolicies.Strict ↔
        mDefault.tolerated_harm ≤ mDefault.calculate_h0) ∧
      (mDefault.merger_policy = MergerPolicies.Intermediate_late_takeover_prohibited ↔
        (mDefault.calculate_h0 < mDefault.tolerated_harm ∧
          mDefault.tolerated_harm < mDefault.calculate_h1)) ∧
      (mDefault.merger_policy = MergerPolicies.Intermediate_late_takeover_allowed ↔
        (mDefault.calculate_h1 ≤ mDefault.tolerated_harm ∧
          mDefault.tolerated_harm < mDefault.calculate_h2)) ∧
      (mDefault.merger_policy = MergerPolicies.Laissez_faire ↔
        (mDefault.calculate_h1 ≤ mDefault.tolerated_harm ∧
          mDefault.calculate_h2 ≤ mDefault.tolerated_harm))) := by
  have h1 : 0 < mDefault.success_probability := by norm_num [mDefault, baseDefault]
  have h2 : mDefault.toBaseModel.w_with_innovation < mDefault.toBaseModel.w_duopoly := by
    norm_num [mDefault, baseDefault, BaseModel.w_with_innovation, BaseModel.w_duopoly]
  have h3 : mDefault.development_costs <
      mDefault.success_probability *
        (mDefault.toBaseModel.w_with_innovation -
          mDefault.toBaseModel.w_without_innovation) := by
    norm_num [mDefault, baseDefault, BaseModel.w_with_innovation,
      BaseModel.w_without_innovation]
  have h4 : mDefault.asset_threshold_cdf < 1 := by
    norm_num [mDefault, baseDefault, MergerPolicyModel.asset_threshold_cdf,
      MergerPolicyModel.asset_threshold, normCdfModel, abs]
  exact ⟨⟨h1, h2, h3, h4⟩, C1_regime_classification_amended mDefault h1 h2 h3 h4⟩

/-- Counterexample for claim C5: a validly constructed parameter set for
which h2 < h1, so the chain h0 at most h1 at most h2 fails. -/
theorem C5_counterexample :
    okB mThresholdGap.construct = true ∧
    mThresholdGap.calculate_h2 < mThresholdGap.calculate_h1 := by
  obtain ⟨hok, hh1, hh2, _⟩ := mThresholdGap_facts
  refine ⟨hok, ?_⟩
  rw [hh1, hh2]
  norm_num

/-- Claim C5 (amended): for valid parameterizations h0 is at most h1, but
the second inequality h1 at most h2 of the claimed chain can fail. -/
theorem C5_threshold_ordering_amended (m : MergerPolicyModel)
    (hp : 0 < m.success_probability)
    (hW : m.toBaseModel.w_with_innovation < m.toBaseModel.w_duopoly)
    (hA4 : m.development_costs <
      m.success_probability *
        (m.toBaseModel.w_with_innovation - m.toBaseModel.w_without_innovation))
    (hF : m.asset_threshold_cdf ≤ 1) :
    m.calculate_h0 ≤ m.calculate_h1 := by
  have hd : 0 < m.success_probability *
      (m.toBaseModel.w_duopoly - m.toBaseModel.w_without_innovation) -
      m.development_costs := by nlinarith
  have h1nonneg : 0 ≤ m.calculate_h1 := by
    unfold MergerPolicyModel.calculate_h1
    exact mul_nonneg (by linarith) hd.le
  have key : m.calculate_h1 -
      ((1 - m.asset_threshold_cdf) *
          (m.success_probability *
            (m.toBaseModel.w_duopoly - m.toBaseModel.w_with_innovation)) -
        m.asset_threshold_cdf *
          (m.success_probability *
              (m.toBaseModel.w_with_innovation - m.toBaseModel.w_without_innovation) -
            m.development_costs)) =
      m.success_probability *
          (m.toBaseModel.w_with_innovation - m.toBaseModel.w_without_innovation) -
        m.development_costs := by
    unfold MergerPolicyModel.calculate_h1
    ring
  unfold MergerPolicyModel.calculate_h0
  exact max_le (by linarith) h1nonneg

/-- Witness for the amended claim C5 at the default parameters. -/
theorem C5_threshold_ordering_amended_witness :
    (0 < mDefault.success_probability ∧
      mDefault.toBaseModel.w_with_innovation < mDefault.toBaseModel.w_duopoly ∧
      mDefault.development_costs <
        mDefault.success_probability *
          (mDefault.toBaseModel.w_with_innovation -
            mDefault.toBaseModel.w_without_innovation) ∧
      mDefault.asset_threshold_cdf ≤ 1) ∧
    mDefault.calculate_h0 ≤ mDefault.calculate_h1 := by
  have h1 : 0 < mDefault.success_probability := by norm_num [mDefault, baseDefault]
  have h2 : mDefault.toBaseModel.w_with_innovation < mDefault.toBaseModel.w_duopoly := by
    norm_num [mDefault, baseDefault, BaseModel.w_with_innovation, BaseModel.w_duopoly]
  have h3 : mDefault.development_costs <
      mDefault.success_probability *
        (mDefault.toBaseModel.w_with_innovation -
          mDefault.toBaseModel.w_without_innovation) := by
    norm_num [mDefault, baseDefault, BaseModel.w_with_innovation,
      BaseModel.w_without_innovation]
  have h4 : mDefault.asset_threshold_cdf ≤ 1 := by
    norm_num [mDefault, baseDefault, MergerPolicyModel.asset_threshold_cdf,
      MergerPolicyModel.asset_threshold, normCdfModel, abs]
  exact ⟨⟨h1, h2, h3, h4⟩, C5_threshold_ordering_amended mDefault h1 h2 h3 h4⟩

/-- Counterexample for claim C6: a parameter set satisfying every stated
precondition for which BaseModel construction nevertheless raises, because
the welfare ranking w_with_innovation < w_duopoly is an independent
postcondition, not a consequence of the preconditions. -/
theorem C6_counterexample :
    BaseModel.preconditions_hold baseLowDuopolySurplus ∧
    BaseModel.construct baseLowDuopolySurplus =
      Except.error ⟨PyExcType.AssertionError, "Ranking of total welfare not valid (p.7)"⟩ ∧
    ¬(baseLowDuopolySurplus.w_with_innovation < baseLowDuopolySurplus.w_duopoly) := by
  have hpre : BaseModel.preconditions_hold baseLowDuopolySurplus := by
    norm_num [BaseModel.preconditions_hold, baseLowDuopolySurplus, baseDefault]
  have hrank : ¬(baseLowDuopolySurplus.w_without_innovation <
      baseLowDuopolySurplus.w_with_innovation ∧
      baseLowDuopolySurplus.w_with_innovation < baseLowDuopolySurplus.w_duopoly) := by
    norm_num [BaseModel.w_without_innovation, BaseModel.w_with_innovation,
      BaseModel.w_duopoly, baseLowDuopolySurplus, baseDefault]
  refine ⟨hpre, ?_, ?_⟩
  · unfold BaseModel.construct
    rw [check_preconditions_ok _ hpre, except_bind_ok]
    unfold BaseModel.check_postconditions
    rw [pyAssert_neg hrank, except_bind_error]
  · norm_num [BaseModel.w_with_innovation, BaseModel.w_duopoly,
      baseLowDuopolySurplus, baseDefault]

/-- Claim C6 (amended): under the stated preconditions the first welfare
inequality w_without_innovation < w_with_innovation is a derived
consequence, and construction succeeds when additionally the asserted
postconditions (full welfare ranking and A4) hold; the full ranking itself
is an independent restriction that the preconditions do not imply. -/
theorem C6_base_model_construction_amended : ∀ b : BaseModel,
    b.preconditions_hold →
      (b.w_without_innovation < b.w_with_innovation ∧
        (b.postconditions_hold → BaseModel.construct b = Except.ok ())) := by
  intro b hpre
  constructor
  · obtain ⟨_, _, _, _, _, p6, p7, _⟩ := hpre
    unfold BaseModel.w_without_innovation BaseModel.w_with_innovation
    linarith
  · intro hpost
    unfold BaseModel.construct
    rw [check_preconditions_ok b hpre, except_bind_ok,
      check_postconditions_ok b hpost]

/-- Witness for the amended claim C6 at the default parameters. -/
theorem C6_base_model_construction_amended_witness :
    BaseModel.preconditions_hold baseDefault ∧
    BaseModel.postconditions_hold baseDefault ∧
    baseDefault.w_without_innovation < baseDefault.w_with_innovation ∧
    BaseModel.construct baseDefault = Except.ok () := by
  have hpre : BaseModel.preconditions_hold baseDefault := by
    norm_num [BaseModel.preconditions_hold, baseDefault]
  have hpost : BaseModel.postconditions_hold baseDefault := by
    norm_num [BaseModel.postconditions_hold, baseDefault, BaseModel.w_duopoly,
      BaseModel.w_with_innovation, BaseModel.w_without_innovation]
  exact ⟨hpre, hpost, (C6_base_model_construction_amended baseDefault hpre).1,
    (C6_base_model_construction_amended baseDefault hpre).2 hpost⟩

lemma mBadA2_construct :
    MergerPolicyModel.construct mBadA2 =
      Except.error ⟨PyExcType.AssertionError, "A2 not satisfied (p.7)"⟩ := by
  have hpre : mBadA2.toBaseModel.check_preconditions =
      Except.error ⟨PyExcType.AssertionError, "A2 not satisfied (p.7)"⟩ := by
    unfold BaseModel.check_preconditions
    rw [pyAssert_pos (by norm_num [mBadA2, baseDefault]), except_bind_ok,
      pyAssert_pos (by norm_num [mBadA2, baseDefault]), except_bind_ok,
      pyAssert_pos (by norm_num [mBadA2, baseDefault]), except_bind_ok,
      pyAssert_pos (by norm_num [mBadA2, baseDefault]), except_bind_ok,
      pyAssert_pos (by norm_num [mBadA2, baseDefault]), except_bind_ok,
      pyAssert_pos (by norm_num [mBadA2, baseDefault]), except_bind_ok,
      pyAssert_pos (by norm_num [mBadA2, baseDefault]), except_bind_ok,
      pyAssert_pos (by norm_num [mBadA2, baseDefault]), except_bind_ok,
      pyAssert_neg (by norm_num [mBadA2, baseDefault]), except_bind_error]
  unfold MergerPolicyModel.construct
  rw [hpre, except_bind_error]

/-- Counterexample for claim C10: a validation failure (violated A2) and an
internal logic-invariant failure (both takeovers bid and accepted) raise the
same Python exception type, AssertionError; no distinct error type
separates them. -/
theorem C10_counterexample :
    MergerPolicyModel.construct mBadA2 =
      Except.error ⟨PyExcType.AssertionError, "A2 not satisfied (p.7)"⟩ ∧
    MergerPolicyModel.set_takeovers none Takeover.Pooling Takeover.Pooling true true =
      Except.error ⟨PyExcType.AssertionError, "Only one takeover can occur."⟩ ∧
    (PyExc.mk PyExcType.AssertionError "A2 not satisfied (p.7)").excType =
      (PyExc.mk PyExcType.AssertionError "Only one takeover can occur.").excType :=
  ⟨mBadA2_construct, rfl, rfl⟩

/-- Claim C10 (amended): construction-time validation failures carry
messages naming the violated assumption, but they raise AssertionError, and
internal logic-invariant failures raise AssertionError as well: the two
categories share one exception type and are distinguishable only by
message. -/
theorem C10_error_taxonomy_amended :
    (∀ (m : MergerPolicyModel) (e : PyExc),
      m.construct = Except.error e → e.excType = PyExcType.AssertionError) ∧
    (∀ (st : Option Outcome) (a b : Takeover) (ea la : Bool) (e : PyExc),
      MergerPolicyModel.set_takeovers st a b ea la = Except.error e →
        e.excType = PyExcType.AssertionError) := by
  constructor
  · intro m e he
    have h : errIsAssertion m.construct := by
      unfold MergerPolicyModel.construct
      exact errIsAssertion_bind (errIsAssertion_check_preconditions _)
        (fun _ => errIsAssertion_bind (errIsAssertion_check_postconditions _)
          (fun _ => errIsAssertion_bind (errIsAssertion_check_thresholds _)
            (fun _ => errIsAssertion_solve_game _)))
    exact h e he
  · intro st a b ea la e he
    exact errIsAssertion_set_takeovers st a b ea la e he

/-- Witness for the amended claim C10: both a concrete validation error and
a concrete logic-invariant error are AssertionError. -/
theorem C10_error_taxonomy_amended_witness :
    MergerPolicyModel.construct mBadA2 =
      Except.error ⟨PyExcType.AssertionError, "A2 not satisfied (p.7)"⟩ ∧
    (PyExc.mk PyExcType.AssertionError "A2 not satisfied (p.7)").excType =
      PyExcType.AssertionError ∧
    (PyExc.mk PyExcType.AssertionError "Only one takeover can occur.").excType =
      PyExcType.AssertionError :=
  ⟨mBadA2_construct,
    C10_error_taxonomy_amended.1 mBadA2 _ mBadA2_construct,
    C10_error_taxonomy_amended.2 none Takeover.Pooling Takeover.Pooling true true _ rfl⟩
